import Mathlib

/-!
Verification development for the Octane render-session controller
(`blender/intern/octane/blender/render/session.cpp`).

The session is embedded as a pure state-transition system.  A `Session`
value holds the fields of the C++ `Session` object that the verified
properties touch; every call the session issues to the external render
engine client, to the scene collaborator or to the host session callback
is recorded as an `Event` in a trace.  Interaction points where the code
reads data produced by an external collaborator (image downloads, server
error strings, condition-variable wake-ups, scene dirtiness) are supplied
by per-iteration environment records (`UrbEnv`, `IterEnv`), so theorems
quantify over every possible behaviour of the collaborators.

Wall-clock time (`time_dt()`) is modelled with natural-number tick counts
supplied by the environment; the floating-point formatting performed by
`update_status_time` is collapsed to a `Status.statusTime` tag because the
verified properties never inspect the formatted text.
-/

namespace OctaneSession

/-- Color formats of `OctaneEngine::OctaneClient` used by the session
(`IMAGE_8BIT`, `IMAGE_FLOAT_TONEMAPPED`, `IMAGE_FLOAT`). -/
inductive ColorFormat where
  | image8bit
  | imageFloatTonemapped
  | imageFloat
deriving DecidableEq, Repr

/-- Live statistics snapshot; only the current sample counter
(`uiCurSamples`) is inspected by the session logic under verification. -/
structure ImageStat where
  uiCurSamples : Nat
deriving DecidableEq, Repr

/-- Session configuration (`SessionParams`): the fields of the C++ struct
read by `session.cpp`.  `export_scene` is the scene-export mode with `0`
standing for `SceneExportTypes::NONE`. -/
structure SessionParams where
  interactive : Bool
  width : Nat
  height : Nat
  samples : Nat
  hdr_tonemapped : Bool
  out_of_core_enabled : Bool
  out_of_core_mem_limit : Nat
  out_of_core_gpu_headroom : Nat
  export_scene : Nat
  deep_image : Bool
  image_stat : ImageStat
deriving DecidableEq, Repr

/-- Declared parameters of a frame/display buffer.  The pass layout and
offsets are collapsed to the dimensions, which is all the session
comparisons need. -/
structure BufferParams where
  width : Nat
  height : Nat
deriving DecidableEq, Repr

/-- Modelled from the spec: `BufferParams::modified` (declared in
`buffers.h`, which is not among the sources) "compares declared
parameters" and reports whether they differ. -/
def BufferParams.modified (b other : BufferParams) : Bool :=
  b != other

/-- Modelled from the spec: the initial declared parameters of a freshly
allocated `DisplayBuffer` (a freshly reset empty state). -/
def BufferParams.init : BufferParams :=
  { width := 0, height := 0 }

/-- Status text held by the progress tracker.  `statusTime` stands for the
formatted line produced by `Session::update_status_time` (throughput,
memory and similar figures elided); `plain` records a literal
`set_status` call. -/
inductive Status where
  | init
  | statusTime (show_pause show_done : Bool)
  | plain (status substatus : String)
deriving DecidableEq, Repr

/-- Modelled from the spec: the `Progress` tracker (declared outside the
sources) holds the cancellation state `none | requested(message)`, the
status strings and the start time. -/
structure Progress where
  cancel : Bool
  cancel_message : String
  status : Status
  start_time : Nat
deriving DecidableEq, Repr

/-- Modelled from the spec: `Progress::set_cancel` records a cancellation
request together with its message. -/
def Progress.set_cancel (p : Progress) (msg : String) : Progress :=
  { p with cancel := true, cancel_message := msg }

/-- Modelled from the spec: `Progress::set_status` stores the status and
substatus strings. -/
def Progress.set_status (p : Progress) (st sub : String) : Progress :=
  { p with status := Status.plain st sub }

/-- Modelled from the spec: `Progress::set_start_time`. -/
def Progress.set_start_time (p : Progress) (t : Nat) : Progress :=
  { p with start_time := t }

/-- Initial progress tracker state. -/
def Progress.initState : Progress :=
  { cancel := false, cancel_message := "", status := Status.init, start_time := 0 }

/-- Observable calls issued by the session.  `refresh` is a marker emitted
on every entry to `Session::update_render_buffer` (the buffer-refresh
step); `statusQuery` records the engine-client queries performed by each
`Session::update_status_time` call (`checkServerConnection`, and
`getFailReason`/`getServerInfo` on an unhealthy connection); the other
constructors record calls to the engine client, the scene collaborator
(`scenePush` = `scene->server_update`) and the host session callback
(`hostNotify` = `b_session->update_render_img`). -/
inductive Event where
  | startRender (width height : Nat) (fmt : ColorFormat)
      (outOfCore : Bool) (memLimit gpuHeadroom : Nat)
  | pauseRender (flag : Bool)
  | download (fmt : ColorFormat) (passId : Nat)
  | clearServerError
  | scenePush
  | hostNotify
  | serverReset (exportMode : Nat)
  | notifyAll
  | refresh
  | statusQuery
deriving DecidableEq, Repr

/-- The mutable state of a `Session` object, as laid out in `session.h`
and mutated by `session.cpp`.  `displayParams` is the declared parameters
of the `DisplayBuffer`, `none` when the constructor left the `display`
pointer `NULL` (non-interactive sessions).  `hasBSession` records whether
a parent `BlenderSession` was attached. -/
structure Session where
  params : SessionParams
  pause : Bool
  displayParams : Option BufferParams
  display_outdated : Bool
  progress : Progress
  start_time : Nat
  reset_time : Nat
  paused_time : Nat
  hasBSession : Bool
  passName : String
deriving DecidableEq, Repr

/-- Write the current-sample counter inside `params.image_stat`. -/
def setCurSamples (s : Session) (n : Nat) : Session :=
  { s with params := { s.params with image_stat := { uiCurSamples := n } } }

/-- Mark the session cancelled through `progress.set_cancel`. -/
def Session.cancelWith (s : Session) (msg : String) : Session :=
  { s with progress := s.progress.set_cancel msg }

/-- `Session::update_status_time(show_pause, show_done)`: queries the
engine client for its connection health (`checkServerConnection`, and
`getFailReason`/`getServerInfo` when unhealthy — recorded together as one
`statusQuery` event) and refreshes the status line accordingly (the
string formatting, which the verified properties never read, is
collapsed to a `Status.statusTime` tag). -/
def update_status_time (s : Session) (show_pause show_done : Bool) : Session × List Event :=
  ({ s with progress := { s.progress with status := Status.statusTime show_pause show_done } },
   [Event.statusQuery])

/-- The `Session::Session` constructor: creates the engine client, leaves
the display buffer `NULL` unless the session is interactive, and zeroes
the timing fields and flags. -/
def Session.construct (params_ : SessionParams) : Session :=
  { params := params_
    pause := false
    displayParams := if params_.interactive then some BufferParams.init else none
    display_outdated := false
    progress := Progress.initState
    start_time := 0
    reset_time := 0
    paused_time := 0
    hasBSession := false
    passName := "" }

/-- `Session::set_blender_session`: the parent session handle is stored
only when the parent is not interactive (the connection attempt and its
diagnostics do not touch the session state). -/
def Session.set_blender_session (s : Session) (blenderInteractive : Bool) : Session :=
  if !blenderInteractive then { s with hasBSession := true } else s

/-- `Session::start`: stores the pass metadata (the worker thread spawn is
represented by running `run_render` explicitly). -/
def Session.start (s : Session) (pass_name_ : String) : Session :=
  { s with passName := pass_name_ }

/-- `Session::set_pause`: updates the pause flag under the pause lock only
when the value changes; the returned flag records whether
`pause_cond.notify_all()` was called. -/
def Session.set_pause (s : Session) (pause_ : Bool) : Session × Bool :=
  if s.pause != pause_ then ({ s with pause := pause_ }, true) else (s, false)

/-- `Session::set_samples`: stores a new target sample count when it
differs from the current one. -/
def Session.set_samples (s : Session) (samples : Nat) : Session :=
  if samples != s.params.samples
  then { s with params := { s.params with samples := samples } }
  else s

/-- `Session::draw`: under the display lock, compares the requested
parameters against the display buffer parameters and either delegates to
`display->draw()` (whose result the display collaborator supplies as
`displayDrawResult`) or reports "not ready".  The code after the first
`return` in the source is unreachable and therefore not modelled.  A
`none` result records the undefined null dereference of `display` when no
display buffer was allocated. -/
def Session.draw (s : Session) (buffer_params : BufferParams) (displayDrawResult : Bool) :
    Option Bool × Session :=
  match s.displayParams with
  | none => (none, s)
  | some dp =>
    if !(buffer_params.modified dp) then (some displayDrawResult, s)
    else (some false, s)

/-- `Session::reset_parameters`: reinitializes the display buffer
parameters when they changed (`display->reset`, modelled from the spec as
storing the new declared parameters), resets the timing fields and, for
interactive sessions, the progress start time.  `now` is the `time_dt()`
reading. -/
def reset_parameters (s : Session) (buffer_params : BufferParams) (now : Nat) : Session :=
  let s1 :=
    match s.displayParams with
    | some dp =>
      if buffer_params.modified dp then { s with displayParams := some buffer_params } else s
    | none => s
  let s2 := { s1 with start_time := now, paused_time := 0 }
  if s2.params.interactive
  then { s2 with progress := s2.progress.set_start_time (s2.start_time + s2.paused_time) }
  else s2

/-- `Session::reset`: under the display and buffer locks, marks the
display outdated, records the reset time, runs `reset_parameters`,
instructs the engine client to reset its render state
(`server->reset(params.export_scene, ...)`; the GPU mask and the
floating-point sampling hint, which the session merely forwards, are
elided from the event) and wakes any waiter. -/
def Session.reset (s : Session) (buffer_params : BufferParams) (now : Nat) :
    Session × List Event :=
  let s1 := { s with display_outdated := true, reset_time := now }
  let s2 := reset_parameters s1 buffer_params now
  (s2, [Event.serverReset s2.params.export_scene, Event.notifyAll])

/-- `Session::update`: identical to `Session::reset` except that the
engine-client reset call is commented out in the source. -/
def Session.update (s : Session) (buffer_params : BufferParams) (now : Nat) :
    Session × List Event :=
  let s1 := { s with display_outdated := true, reset_time := now }
  let s2 := reset_parameters s1 buffer_params now
  (s2, [Event.notifyAll])

/-- `Session::update_scene_to_server`: pushes the scene to the engine
client when the export mode is not `NONE` or the scene reports pending
updates (`scene->need_update()`, supplied by the environment).  The
camera-dimension refresh touches only the scene collaborator and is not
observable through the verified properties. -/
def update_scene_to_server (s : Session) (sceneNeedUpdate : Bool) : Session × List Event :=
  if !(s.params.export_scene == 0) || sceneNeedUpdate then
    ({ s with progress := s.progress.set_status "Updating Scene" "" }, [Event.scenePush])
  else (s, [])

/-- Resolution of the target color format, as written inline at the
`startRender` and `downloadImageBuffer` call sites:
`interactive ? IMAGE_8BIT : (hdr_tonemapped ? IMAGE_FLOAT_TONEMAPPED : IMAGE_FLOAT)`. -/
def resolveColorFormat (p : SessionParams) : ColorFormat :=
  if p.interactive then ColorFormat.image8bit
  else if p.hdr_tonemapped then ColorFormat.imageFloatTonemapped
  else ColorFormat.imageFloat

/-- The error-message check the render loop performs after potentially
slow engine calls: a non-empty `server->getServerErrorMessage()` (read
supplied by the environment as `err`) triggers a cancellation with the
generic diagnostic and a `clearServerErrorMessage` call. -/
def serverErrorCheck (s : Session) (err : String) : Session × List Event :=
  if err = "" then (s, [])
  else (s.cancelWith "ERROR! Check console for detailed error messages.", [Event.clearServerError])

/-- Environment record for one `Session::update_render_buffer` call:
results of the (up to two) `downloadImageBuffer` calls, the pass
identifiers resolved from the scene, the values `progress.get_cancel()`
returns at the two re-check points (a concurrent controller may set the
flag at any moment) and the effect of the host callback.  `hostSamples`
is modelled from the spec: `b_session->update_render_img()` lives in
`blender_session.cpp`, outside the sources; the spec says the host
callback is notified "whenever a new sample snapshot is ready", so its
possible effect on the live sample counter is left to the environment. -/
structure UrbEnv where
  passId1 : Nat
  passId2 : Nat
  dl1HasData : Bool
  dl1Samples : Nat
  dl2Samples : Nat
  cancelMid1 : Bool
  cancelMid2 : Bool
  hostSamples : Option Nat
deriving DecidableEq, Repr

/-- `Session::update_img_sample`: notifies the parent session (when one
is attached) under the image lock, then refreshes the status line. -/
def update_img_sample (s : Session) (hostSamples : Option Nat) : Session × List Event :=
  if s.hasBSession then
    let s1 :=
      match hostSamples with
      | some n => setCurSamples s n
      | none => s
    let r := update_status_time s1 false false
    (r.1, Event.hostNotify :: r.2)
  else update_status_time s false false

/-- `Session::update_render_buffer`: returns immediately when cancelled;
otherwise the source condition `params.interactive &&
!server->downloadImageBuffer(...) && b_session` evaluates the download
(writing the live statistics) only when the session is interactive, and
on a data-less download with an attached parent re-checks cancellation
and downloads again.  After the conditional block cancellation is
re-checked once more before the non-interactive host notification.  The
leading `refresh` event marks the entry to the buffer-refresh step. -/
def update_render_buffer (s : Session) (env : UrbEnv) : Session × List Event :=
  if s.progress.cancel then (s, [Event.refresh])
  else
    let tail2 : Session → List Event → Session × List Event := fun t evs =>
      if t.progress.cancel || env.cancelMid2 then (t, evs)
      else if !t.params.interactive then
        let r := update_img_sample t env.hostSamples
        (r.1, evs ++ r.2)
      else (t, evs)
    if s.params.interactive then
      let s1 := setCurSamples s env.dl1Samples
      let evs1 := [Event.refresh, Event.download (resolveColorFormat s1.params) env.passId1]
      if !env.dl1HasData && s1.hasBSession then
        if s1.progress.cancel || env.cancelMid1 then (s1, evs1)
        else
          let mid :=
            if !s1.params.interactive then update_img_sample s1 env.hostSamples else (s1, [])
          let s2 := setCurSamples mid.1 env.dl2Samples
          tail2 s2 (evs1 ++ mid.2 ++ [Event.download (resolveColorFormat s2.params) env.passId2])
      else tail2 s1 evs1
    else tail2 s [Event.refresh]

/-- One wake-up of the render loop from `pause_cond.wait`: the wall-clock
ticks spent inside the wait and the value of the pause flag observed
after waking (the flag is written concurrently by `set_pause`). -/
structure Wake where
  dur : Nat
  pauseAfter : Bool
deriving DecidableEq, Repr

/-- The inner pause wait of `Session::run_render` (the `while(true)` body
holding the pause lock): tells the engine client to pause when the flag
is set, waits, accumulates the elapsed wait into `paused_time`, moves the
progress start time past the paused interval, refreshes the status and
exits—resuming the engine client—only once the pause flag is observed
cleared.  `nextWaitState` is the session state right after one wake: the
elapsed wait accumulated into `paused_time`, the concurrently written
pause flag re-read, the progress start time moved past the paused
interval and the status refreshed; `pauseWaitLoop` iterates it over the
delivered wakes, returning `false` when the wake list is exhausted with
the loop still blocked in the wait. -/
def nextWaitState (s : Session) (w : Wake) (is_done : Bool) : Session × List Event :=
  let s1 := { s with paused_time := s.paused_time + w.dur, pause := w.pauseAfter }
  let s2 := { s1 with progress := s1.progress.set_start_time (s1.start_time + s1.paused_time) }
  update_status_time s2 s2.pause is_done

def pauseWaitLoop (s : Session) (is_done : Bool) : List Wake → Session × List Event × Bool
  | [] => (s, if s.pause then [Event.pauseRender true] else [], false)
  | w :: ws =>
    let evsTop := if s.pause then [Event.pauseRender true] else []
    let r3 := nextWaitState s w is_done
    if r3.1.pause then
      let r := pauseWaitLoop r3.1 is_done ws
      (r.1, evsTop ++ r3.2 ++ r.2.1, r.2.2)
    else (r3.1, evsTop ++ r3.2 ++ [Event.pauseRender false], true)

/-- The loop-local variables of `Session::run_render`. -/
structure LoopCtl where
  is_done : Bool
  bStarted : Bool
deriving DecidableEq, Repr

/-- How one iteration of the render loop ended: continue with updated
loop variables, `break` out of the loop, or stay blocked inside the pause
wait. -/
inductive IterRes where
  | next (ctl : LoopCtl)
  | stop
  | blocked
deriving DecidableEq, Repr

/-- Environment record for one iteration of the render loop: the wake-ups
delivered while blocked in the pause wait, the scene dirtiness, the
server error strings read at the two check sites and the
`update_render_buffer` environment. -/
structure IterEnv where
  wakes : List Wake
  sceneNeedUpdate : Bool
  serverError1 : String
  serverError2 : String
  urb : UrbEnv
deriving DecidableEq, Repr

/-- One iteration of the `while(!progress.get_cancel())` body of
`Session::run_render` (the `time_sleep(0.01)` throttle has no observable
effect and is elided).  In background mode a set `is_done` sets the
terminal status and breaks; in interactive mode a set pause flag or
`is_done` enters the pause wait; otherwise the iteration pushes the scene
(before the first start, and always while interactive), issues the
one-time `startRender`, surfaces server errors as cancellations around
the buffer refresh, and finally recomputes `is_done`. -/
def renderIterBody (s : Session) (ctl : LoopCtl) (env : IterEnv) :
    Session × List Event × IterRes :=
  if !s.params.interactive && ctl.is_done then
    let r1 := update_status_time s false false
    let s2 := { r1.1 with progress := r1.1.progress.set_status (r1.1.passName ++ " finished") "" }
    (s2, r1.2, IterRes.stop)
  else
    let waitStep : Session × List Event × Bool :=
      if s.params.interactive then
        if s.pause || ctl.is_done then
          let rw := update_status_time s s.pause ctl.is_done
          let pw := pauseWaitLoop rw.1 ctl.is_done env.wakes
          (pw.1, rw.2 ++ pw.2.1, pw.2.2)
        else (s, [], true)
      else (s, [], true)
    let s1 := waitStep.1
    let evsW := waitStep.2.1
    if !waitStep.2.2 then (s1, evsW, IterRes.blocked)
    else if s1.params.interactive && s1.progress.cancel then (s1, evsW, IterRes.stop)
    else if !ctl.is_done then
      let sceneStep :=
        if !ctl.bStarted || s1.params.interactive
        then update_scene_to_server s1 env.sceneNeedUpdate
        else (s1, [])
      let s2 := sceneStep.1
      let startStep : Session × List Event × Bool :=
        if !ctl.bStarted then
          (s2, [Event.startRender s2.params.width s2.params.height (resolveColorFormat s2.params)
                  s2.params.out_of_core_enabled s2.params.out_of_core_mem_limit
                  s2.params.out_of_core_gpu_headroom], true)
        else (s2, [], ctl.bStarted)
      let s3 := startStep.1
      let err1 := serverErrorCheck s3 env.serverError1
      let s4 := err1.1
      let evs04 := evsW ++ sceneStep.2 ++ startStep.2.1 ++ err1.2
      if s4.progress.cancel then (s4, evs04, IterRes.stop)
      else
        let urb := update_render_buffer s4 env.urb
        let err2 := serverErrorCheck urb.1 env.serverError2
        let r6 := update_status_time err2.1 false false
        let is_done2 :=
          !r6.1.params.interactive
            && decide (r6.1.params.samples ≤ r6.1.params.image_stat.uiCurSamples)
        (r6.1, evs04 ++ urb.2 ++ err2.2 ++ r6.2,
         IterRes.next { is_done := is_done2, bStarted := startStep.2.2 })
    else
      let urb := update_render_buffer s1 env.urb
      let r5 := update_status_time urb.1 false false
      let is_done2 :=
        !r5.1.params.interactive
          && decide (r5.1.params.samples ≤ r5.1.params.image_stat.uiCurSamples)
      (r5.1, evsW ++ urb.2 ++ r5.2, IterRes.next { is_done := is_done2, bStarted := ctl.bStarted })

/-- How a (fuel-bounded) run of the render loop ended:  the loop broke
out (`stopped`), stayed blocked in the pause wait (`blocked`), or the
supplied iteration environments ran out first (`fuelOut`). -/
inductive Outcome where
  | stopped
  | blocked
  | fuelOut
deriving DecidableEq, Repr

/-- Execution of the `while(!progress.get_cancel())` loop of
`Session::run_render`, driven by one environment record per iteration.
The trace records, for every executed iteration, its emitted events
paired with the loop variables after the iteration (for a breaking
iteration, the variables it entered with). -/
def runLoop (s : Session) (ctl : LoopCtl) :
    List IterEnv → Session × List (List Event × LoopCtl) × Outcome
  | [] =>
    if s.progress.cancel then (s, [], Outcome.stopped) else (s, [], Outcome.fuelOut)
  | env :: rest =>
    if s.progress.cancel then (s, [], Outcome.stopped)
    else
      match renderIterBody s ctl env with
      | (s1, evs, IterRes.stop) => (s1, [(evs, ctl)], Outcome.stopped)
      | (s1, evs, IterRes.blocked) => (s1, [(evs, ctl)], Outcome.blocked)
      | (s1, evs, IterRes.next ctl1) =>
        let r := runLoop s1 ctl1 rest
        (r.1, (evs, ctl1) :: r.2.1, r.2.2)

/-- `Session::run_render`: initializes the timing fields and the sample
counter, publishes the start time for interactive sessions, then runs the
render loop. -/
def Session.run_render (s : Session) (now : Nat) (envs : List IterEnv) :
    Session × List (List Event × LoopCtl) × Outcome :=
  let s1 := { s with reset_time := now, start_time := now, paused_time := 0 }
  let s2 := setCurSamples s1 0
  let s3 :=
    if s2.params.interactive
    then { s2 with progress := s2.progress.set_start_time now }
    else s2
  runLoop s3 { is_done := false, bStarted := false } envs

/-- Number of `downloadImageBuffer` calls in a trace. -/
def countDownload : List Event → Nat
  | [] => 0
  | Event.download _ _ :: es => countDownload es + 1
  | _ :: es => countDownload es

/-- Number of `startRender` calls in a trace. -/
def countStartRender : List Event → Nat
  | [] => 0
  | Event.startRender _ _ _ _ _ _ :: es => countStartRender es + 1
  | _ :: es => countStartRender es

/-- Number of buffer-refresh steps (entries to `update_render_buffer`) in
a trace. -/
def countRefresh : List Event → Nat
  | [] => 0
  | Event.refresh :: es => countRefresh es + 1
  | _ :: es => countRefresh es

/-- Number of `pauseRender(true)` calls in a trace. -/
def countPauseTrue : List Event → Nat
  | [] => 0
  | Event.pauseRender true :: es => countPauseTrue es + 1
  | _ :: es => countPauseTrue es

/-- Number of `pauseRender(false)` calls in a trace. -/
def countPauseFalse : List Event → Nat
  | [] => 0
  | Event.pauseRender false :: es => countPauseFalse es + 1
  | _ :: es => countPauseFalse es

/-- Number of scene pushes in a trace. -/
def countScenePush : List Event → Nat
  | [] => 0
  | Event.scenePush :: es => countScenePush es + 1
  | _ :: es => countScenePush es

/-- Number of host-callback notifications in a trace. -/
def countHostNotify : List Event → Nat
  | [] => 0
  | Event.hostNotify :: es => countHostNotify es + 1
  | _ :: es => countHostNotify es

/-- All events of a run, in order. -/
def allEvents (trs : List (List Event × LoopCtl)) : List Event :=
  (trs.map Prod.fst).flatten

/-- Number of buffer-refresh steps performed strictly after the first
iteration at whose end the loop observed the done predicate; `none` when
no iteration observed it. -/
def refreshesAfterDone : List (List Event × LoopCtl) → Option Nat
  | [] => none
  | (_, ctl) :: rest =>
    if ctl.is_done then some ((rest.map (fun p => countRefresh p.1)).sum)
    else refreshesAfterDone rest

/-- Configuration of an offline (non-interactive) session with the given
target dimensions and sample count; scene export enabled. -/
def offlineParams (w h n : Nat) : SessionParams :=
  { interactive := false, width := w, height := h, samples := n, hdr_tonemapped := false,
    out_of_core_enabled := false, out_of_core_mem_limit := 0, out_of_core_gpu_headroom := 0,
    export_scene := 1, deep_image := false, image_stat := { uiCurSamples := 0 } }

/-- Configuration of an interactive session. -/
def interactiveParams : SessionParams :=
  { interactive := true, width := 640, height := 480, samples := 16, hdr_tonemapped := false,
    out_of_core_enabled := false, out_of_core_mem_limit := 0, out_of_core_gpu_headroom := 0,
    export_scene := 1, deep_image := false, image_stat := { uiCurSamples := 0 } }

/-- Engine-client responses for a quiet `update_render_buffer` call: data
available, no concurrent cancellation, no host-side statistics update. -/
def quietUrb : UrbEnv :=
  { passId1 := 0, passId2 := 0, dl1HasData := true, dl1Samples := 0, dl2Samples := 0,
    cancelMid1 := false, cancelMid2 := false, hostSamples := none }

/-- A quiet loop iteration: no wake-ups, clean scene, no server errors. -/
def quietEnv : IterEnv :=
  { wakes := [], sceneNeedUpdate := false, serverError1 := "", serverError2 := "",
    urb := quietUrb }

/-- A loop iteration in which the host callback reports a snapshot with
`n` accumulated samples. -/
def hostEnv (n : Nat) : IterEnv :=
  { quietEnv with urb := { quietUrb with hostSamples := some n } }

/-- A loop iteration in which the first server-error read returns a
non-empty message. -/
def c8Env : IterEnv :=
  { quietEnv with serverError1 := "render failure" }

/-- A freshly constructed offline session with an attached parent session
and a named pass. -/
def offlineSession (w h n : Nat) : Session :=
  ((Session.construct (offlineParams w h n)).set_blender_session false).start "Beauty"

/-- A freshly constructed interactive session. -/
def interactiveSession : Session :=
  Session.construct interactiveParams

/-- Loop variables while actively rendering (render already started). -/
def interactiveCtl : LoopCtl :=
  { is_done := false, bStarted := true }

/-- An interactive session whose controller has requested a pause. -/
def pausedSession : Session :=
  (interactiveSession.set_pause true).1

/-- A session whose cancellation flag is already set. -/
def cancelledSession : Session :=
  (offlineSession 2 2 1).cancelWith "Exiting"

/-- A wake-up that finds the pause flag still set. -/
def wakePause : Wake :=
  { dur := 2, pauseAfter := true }

/-- A wake-up that finds the pause flag cleared. -/
def wakeResume : Wake :=
  { dur := 3, pauseAfter := false }

/-- Complete offline run at target one sample: the host callback reports
the target reached during the first buffer refresh. -/
def c1Run : Session × List (List Event × LoopCtl) × Outcome :=
  Session.run_render (offlineSession 800 600 1) 0 [hostEnv 1, quietEnv]

/-- Complete offline run of the spec scenario (800 x 600, 100 samples):
the host callback reports 40 then 100 accumulated samples. -/
def c2Run : Session × List (List Event × LoopCtl) × Outcome :=
  Session.run_render (offlineSession 800 600 100) 0 [hostEnv 40, hostEnv 100, quietEnv]

/-- Splitting a trace splits the download count. -/
theorem countDownload_append (a b : List Event) :
    countDownload (a ++ b) = countDownload a + countDownload b := by
  induction a with
  | nil => simp [countDownload]
  | cons e es ih =>
    cases e <;> simp [countDownload, ih]
    omega

/-- The buffer-refresh step never changes the cancellation flag. -/
theorem update_render_buffer_cancel (s : Session) (env : UrbEnv) :
    (update_render_buffer s env).1.progress.cancel = s.progress.cancel := by
  by_cases h1 : s.progress.cancel <;>
  by_cases h2 : s.params.interactive <;>
  by_cases h3 : env.dl1HasData <;>
  by_cases h4 : s.hasBSession <;>
  by_cases h5 : env.cancelMid1 <;>
  by_cases h6 : env.cancelMid2 <;>
  rcases h7 : env.hostSamples with _ | n <;>
  simp [update_render_buffer, update_img_sample, update_status_time, setCurSamples,
    h1, h2, h3, h4, h5, h6, h7]

/-- The buffer-refresh step never changes the interactive flag. -/
theorem update_render_buffer_interactive (s : Session) (env : UrbEnv) :
    (update_render_buffer s env).1.params.interactive = s.params.interactive := by
  by_cases h1 : s.progress.cancel <;>
  by_cases h2 : s.params.interactive <;>
  by_cases h3 : env.dl1HasData <;>
  by_cases h4 : s.hasBSession <;>
  by_cases h5 : env.cancelMid1 <;>
  by_cases h6 : env.cancelMid2 <;>
  rcases h7 : env.hostSamples with _ | n <;>
  simp [update_render_buffer, update_img_sample, update_status_time, setCurSamples,
    h1, h2, h3, h4, h5, h6, h7]

/-- In a non-interactive session, the buffer-refresh step never calls
`downloadImageBuffer`: the guard `params.interactive && ...` in the
source short-circuits before the download. -/
theorem urb_offline_no_download (s : Session) (env : UrbEnv)
    (h : s.params.interactive = false) :
    countDownload (update_render_buffer s env).2 = 0 := by
  by_cases h1 : s.progress.cancel <;>
  by_cases h4 : s.hasBSession <;>
  by_cases h6 : env.cancelMid2 <;>
  rcases h7 : env.hostSamples with _ | n <;>
  simp [update_render_buffer, update_img_sample, update_status_time, setCurSamples,
    countDownload, h, h1, h4, h6, h7]

/-- A non-interactive loop iteration stays non-interactive and issues no
`downloadImageBuffer` call. -/
theorem iter_offline_preserves (s : Session) (ctl : LoopCtl) (env : IterEnv)
    (h : s.params.interactive = false) :
    (renderIterBody s ctl env).1.params.interactive = false ∧
    countDownload (renderIterBody s ctl env).2.1 = 0 := by
  by_cases hd : ctl.is_done <;>
  by_cases hb : ctl.bStarted <;>
  by_cases hc : s.progress.cancel <;>
  by_cases he1 : env.serverError1 = "" <;>
  by_cases he2 : env.serverError2 = "" <;>
  by_cases hsc : (!(s.params.export_scene == 0) || env.sceneNeedUpdate) = true <;>
  simp [renderIterBody, update_scene_to_server, serverErrorCheck, Session.cancelWith,
    Progress.set_cancel, Progress.set_status, update_status_time, countDownload_append,
    countDownload, h, hd, hb, hc, he1, he2, hsc,
    update_render_buffer_interactive, update_render_buffer_cancel, urb_offline_no_download]

/-- An offline session never calls the engine client's
`downloadImageBuffer` during the render loop: the condition
`params.interactive && !server->downloadImageBuffer(...)` in
`Session::update_render_buffer` short-circuits whenever the session is
not interactive, so no run of the loop — whatever the engine client and
host collaborators do — contains a download call. -/
theorem offline_run_no_download (s : Session) (ctl : LoopCtl) (envs : List IterEnv)
    (h : s.params.interactive = false) :
    countDownload (allEvents (runLoop s ctl envs).2.1) = 0 := by
  induction envs generalizing s ctl with
  | nil =>
    unfold runLoop
    split <;> simp [allEvents, countDownload]
  | cons env rest ih =>
    unfold runLoop
    split
    · simp [allEvents, countDownload]
    · rcases hit : renderIterBody s ctl env with ⟨s1, evs, res⟩
      have hpre := iter_offline_preserves s ctl env h
      rw [hit] at hpre
      rcases hpre with ⟨hint1, hevs⟩
      cases res with
      | stop => simp [hit, allEvents, countDownload_append, hevs, countDownload]
      | blocked => simp [hit, allEvents, countDownload_append, hevs, countDownload]
      | next ctl1 =>
        simp only [hit, allEvents, List.map_cons, List.flatten]
        rw [countDownload_append]
        have := ih s1 ctl1 hint1
        simp only [allEvents] at this
        simp [hevs, this]

/-- C2 counterexample: the spec scenario (offline, 800 x 600, target 100
samples) run to completion — the loop stops with the sample target
reached — contains no `downloadImageBuffer` call at all, refuting the
claim that the loop calls it repeatedly until the target is reached. -/
theorem c2_counterexample :
    c2Run.2.2 = Outcome.stopped ∧
    c2Run.1.params.image_stat.uiCurSamples = 100 ∧
    countDownload (allEvents c2Run.2.1) = 0 ∧
    ¬ 1 ≤ countDownload (allEvents c2Run.2.1) := by
  decide

/-- C2 (amended): for an offline session the loop calls `startRender`
exactly once and pushes the scene exactly once (before the first start);
each iteration performs a buffer refresh that notifies the host session
callback — which is what advances the sample snapshot, the loop itself
never calling `downloadImageBuffer` in offline mode because its call
site is short-circuited by the interactive guard — and once the current
sample count reaches the target the loop stops with no further scene
pushes.  Shown generally for the no-download part and on the concrete
800 x 600, 100-sample scenario for the counts. -/
theorem c2_amended_offline_run :
    (∀ (s : Session) (ctl : LoopCtl) (envs : List IterEnv),
      s.params.interactive = false →
      countDownload (allEvents (runLoop s ctl envs).2.1) = 0) ∧
    countStartRender (allEvents c2Run.2.1) = 1 ∧
    countScenePush (allEvents c2Run.2.1) = 1 ∧
    countDownload (allEvents c2Run.2.1) = 0 ∧
    countHostNotify (allEvents c2Run.2.1) = 2 ∧
    countRefresh (allEvents c2Run.2.1) = 2 ∧
    c2Run.2.2 = Outcome.stopped ∧
    c2Run.1.params.image_stat.uiCurSamples = 100 :=
  ⟨fun s ctl envs h => offline_run_no_download s ctl envs h, by decide⟩

/-- Witness for C2 (amended): the no-download part applied to the spec
scenario input run for three quiet iterations. -/
theorem c2_amended_offline_run_witness :
    countDownload (allEvents (runLoop (offlineSession 800 600 100)
      { is_done := false, bStarted := false } [quietEnv, quietEnv, quietEnv]).2.1) = 0 :=
  c2_amended_offline_run.1 (offlineSession 800 600 100)
    { is_done := false, bStarted := false } [quietEnv, quietEnv, quietEnv] rfl

/-- C3: `draw(params)` returns "not ready" whenever the requested
parameters differ from the display buffer's currently allocated ones,
regardless of image-data availability; when they match it returns the
display collaborator's own draw result; in both cases the session state
is left untouched. -/
theorem c3_draw_param_mismatch (s : Session) (bp dp : BufferParams) (r : Bool)
    (h : s.displayParams = some dp) :
    (bp ≠ dp → Session.draw s bp r = (some false, s)) ∧
    (bp = dp → Session.draw s bp r = (some r, s)) ∧
    (Session.draw s bp r).2 = s := by
  have hdraw : Session.draw s bp r = if bp = dp then (some r, s) else (some false, s) := by
    by_cases hbe : bp = dp <;>
      simp [Session.draw, h, BufferParams.modified, bne_iff_ne, hbe]
  refine ⟨fun hne => by rw [hdraw, if_neg hne], fun heq => by rw [hdraw, if_pos heq], ?_⟩
  rw [hdraw]
  by_cases hbe : bp = dp <;> simp [hbe]

/-- Witness for C3: a resized request against the freshly allocated
display buffer is reported "not ready" without touching the session. -/
theorem c3_draw_param_mismatch_witness :
    Session.draw interactiveSession { width := 3, height := 4 } true
      = (some false, interactiveSession) :=
  (c3_draw_param_mismatch interactiveSession { width := 3, height := 4 }
    BufferParams.init true rfl).1 (by decide)

/-- C4: `set_pause` updates the pause flag and broadcasts only on an
actual state transition; a redundant call leaves the state untouched and
performs no broadcast, so in the interactive scenario where the
controller calls `set_pause(true)` twice the engine client receives
exactly one `pauseRender(true)` call (and no `pauseRender(false)`). -/
theorem c4_set_pause_transitions_only :
    (∀ (s : Session) (p : Bool), s.pause = p → Session.set_pause s p = (s, false)) ∧
    (∀ (s : Session) (p : Bool), s.pause ≠ p →
      Session.set_pause s p = ({ s with pause := p }, true)) ∧
    (Session.set_pause pausedSession true = (pausedSession, false) ∧
      countPauseTrue (renderIterBody pausedSession interactiveCtl quietEnv).2.1 = 1 ∧
      countPauseFalse (renderIterBody pausedSession interactiveCtl quietEnv).2.1 = 0 ∧
      (renderIterBody pausedSession interactiveCtl quietEnv).2.2 = IterRes.blocked) := by
  refine ⟨?_, ?_, ?_⟩
  · intro s p hp
    simp [Session.set_pause, hp]
  · intro s p hp
    simp [Session.set_pause, bne_iff_ne, hp]
  · decide

/-- Witness for C4: a redundant `set_pause(false)` on a running session
is a no-op with no broadcast. -/
theorem c4_set_pause_transitions_only_witness :
    Session.set_pause interactiveSession false = (interactiveSession, false) :=
  c4_set_pause_transitions_only.1 interactiveSession false rfl

/-- C7: `update` performs exactly the same state mutation as `reset` —
display marked outdated, reset time recorded, timing reset, display
parameters reinitialized, waiter woken — and their call traces differ
exactly by the engine-client reset call issued by `reset`. -/
theorem c7_update_equals_reset_minus_server_reset (s : Session) (bp : BufferParams) (now : Nat) :
    (Session.update s bp now).1 = (Session.reset s bp now).1 ∧
    (Session.reset s bp now).2
      = Event.serverReset s.params.export_scene :: (Session.update s bp now).2 := by
  constructor
  · rfl
  · have hp : (reset_parameters { s with display_outdated := true, reset_time := now } bp now).params
        = s.params := by
      unfold reset_parameters
      rcases hd : s.displayParams with _ | dp
      · by_cases hi : s.params.interactive <;> simp [hd, hi, Progress.set_start_time]
      · by_cases hm : bp.modified dp <;> by_cases hi : s.params.interactive <;>
          simp [hd, hm, hi, Progress.set_start_time]
    simp [Session.reset, Session.update, hp]

/-- C9: the constructor leaves the display buffer `NULL` exactly for
non-interactive sessions, and `draw` dereferences it unconditionally, so
`draw` is only defined (returns a value rather than hitting the null
dereference, modelled as `none`) for sessions constructed interactive. -/
theorem c9_draw_requires_interactive_display (params_ : SessionParams)
    (bp : BufferParams) (r : Bool) :
    (params_.interactive = false →
      (Session.construct params_).displayParams = none ∧
      (Session.draw (Session.construct params_) bp r).1 = none) ∧
    (params_.interactive = true →
      ((Session.draw (Session.construct params_) bp r).1).isSome = true) := by
  constructor
  · intro h
    simp [Session.construct, Session.draw, h]
  · intro h
    by_cases hm : bp.modified BufferParams.init <;>
      simp [Session.construct, Session.draw, h, hm]

/-- Witness for C9: a session constructed offline has no display buffer
and its `draw` is undefined. -/
theorem c9_draw_requires_interactive_display_witness :
    (Session.construct (offlineParams 1 1 1)).displayParams = none ∧
    (Session.draw (Session.construct (offlineParams 1 1 1))
      { width := 1, height := 1 } true).1 = none :=
  (c9_draw_requires_interactive_display (offlineParams 1 1 1)
    { width := 1, height := 1 } true).1 rfl

/-- C10: a buffer refresh invoked with cancellation already requested
returns immediately — no download, no host notification, frame buffer
and statistics untouched — and cancellation is re-checked between the
download step and the host-callback notification, so a cancellation
observed there suppresses the notification as well. -/
theorem c10_update_render_buffer_cancel_guard (s : Session) (env : UrbEnv) :
    (s.progress.cancel = true → update_render_buffer s env = (s, [Event.refresh])) ∧
    (s.progress.cancel = false → s.params.interactive = false → env.cancelMid2 = true →
      update_render_buffer s env = (s, [Event.refresh])) := by
  constructor
  · intro h
    simp [update_render_buffer, h]
  · intro h1 h2 h3
    simp [update_render_buffer, h1, h2, h3]

/-- Witness for C10: an already-cancelled session refreshes to a no-op. -/
theorem c10_update_render_buffer_cancel_guard_witness :
    update_render_buffer cancelledSession quietUrb = (cancelledSession, [Event.refresh]) :=
  (c10_update_render_buffer_cancel_guard cancelledSession quietUrb).1 rfl

/-- C5: across any paused interval — a wait entered with the pause flag
set, woken any number of times with the flag still set and finally woken
with it cleared — the loop exits the wait, `paused_time` grows by exactly
the wall-clock ticks spent waiting (hence is non-decreasing), and the
engine client's pause flag is cleared by exactly one `pauseRender(false)`
call, issued last, only once the pause flag is observed cleared. -/
theorem c5_pause_wait_accounting (s : Session) (d : Bool) (ws : List Wake) (w : Wake)
    (hp : s.pause = true) (hws : ∀ x ∈ ws, x.pauseAfter = true) (hw : w.pauseAfter = false) :
    (pauseWaitLoop s d (ws ++ [w])).2.2 = true ∧
    (pauseWaitLoop s d (ws ++ [w])).1.paused_time
      = s.paused_time + ((ws ++ [w]).map Wake.dur).sum ∧
    s.paused_time ≤ (pauseWaitLoop s d (ws ++ [w])).1.paused_time ∧
    (pauseWaitLoop s d (ws ++ [w])).1.pause = false ∧
    ∃ pre, (pauseWaitLoop s d (ws ++ [w])).2.1 = pre ++ [Event.pauseRender false] ∧
      countPauseFalse pre = 0 := by
  induction ws generalizing s with
  | nil =>
    have hp3 : (nextWaitState s w d).1.pause = false := by
      simp [nextWaitState, update_status_time, hw]
    have htime3 : (nextWaitState s w d).1.paused_time = s.paused_time + w.dur := rfl
    have hstep : pauseWaitLoop s d ([] ++ [w])
        = ((nextWaitState s w d).1,
           [Event.pauseRender true, Event.statusQuery, Event.pauseRender false], true) := by
      simp [pauseWaitLoop, nextWaitState, update_status_time, hp, hp3, hw]
    rw [hstep]
    exact ⟨rfl, by simp [htime3], by simp [htime3], hp3,
      [Event.pauseRender true, Event.statusQuery], rfl, rfl⟩
  | cons x xs ih =>
    have hx : x.pauseAfter = true := hws x (by simp)
    have hxs : ∀ y ∈ xs, y.pauseAfter = true := fun y hy => hws y (by simp [hy])
    have hp3 : (nextWaitState s x d).1.pause = true := by
      simp [nextWaitState, update_status_time, hx]
    have htime3 : (nextWaitState s x d).1.paused_time = s.paused_time + x.dur := rfl
    have hstep : pauseWaitLoop s d ((x :: xs) ++ [w])
        = ((pauseWaitLoop (nextWaitState s x d).1 d (xs ++ [w])).1,
           Event.pauseRender true :: Event.statusQuery
             :: (pauseWaitLoop (nextWaitState s x d).1 d (xs ++ [w])).2.1,
           (pauseWaitLoop (nextWaitState s x d).1 d (xs ++ [w])).2.2) := by
      simp [pauseWaitLoop, hp, hp3]
      simp [nextWaitState, update_status_time]
    rw [hstep]
    rcases ih (nextWaitState s x d).1 hp3 hxs with ⟨hex, htime, _, hpf, pre, hpre, hcnt⟩
    refine ⟨hex, ?_, ?_, hpf, Event.pauseRender true :: Event.statusQuery :: pre, ?_, ?_⟩
    · rw [htime, htime3]
      simp [Nat.add_assoc]
    · calc s.paused_time ≤ s.paused_time + x.dur := Nat.le_add_right _ _
        _ ≤ _ := by rw [htime, htime3]; exact Nat.le_add_right _ _
    · simp [hpre]
    · simp [countPauseFalse, hcnt]

/-- Witness for C5: a pause held across one still-paused wake and
released at the second wake accounts five ticks of paused time and
resumes the engine client exactly once. -/
theorem c5_pause_wait_accounting_witness :
    (pauseWaitLoop pausedSession false [wakePause, wakeResume]).2.2 = true ∧
    (pauseWaitLoop pausedSession false [wakePause, wakeResume]).1.paused_time
      = pausedSession.paused_time + ([wakePause, wakeResume].map Wake.dur).sum ∧
    pausedSession.paused_time
      ≤ (pauseWaitLoop pausedSession false [wakePause, wakeResume]).1.paused_time ∧
    (pauseWaitLoop pausedSession false [wakePause, wakeResume]).1.pause = false ∧
    ∃ pre, (pauseWaitLoop pausedSession false [wakePause, wakeResume]).2.1
        = pre ++ [Event.pauseRender false] ∧ countPauseFalse pre = 0 :=
  c5_pause_wait_accounting pausedSession false [wakePause] wakeResume rfl
    (by intro x hx; simp at hx; rw [hx]; rfl) rfl

/-- C6: after `reset(newParams, ...)` completes, the display buffer is
already reconfigured to `newParams`, the parameter comparison reports no
mismatch, and a subsequent `draw(newParams)` does not return "not ready"
on account of a stale size — it delegates to the display draw step. -/
theorem c6_reset_then_draw_no_mismatch (s : Session) (newP : BufferParams) (now : Nat)
    (r : Bool) (dp : BufferParams) (h : s.displayParams = some dp) :
    (Session.reset s newP now).1.displayParams = some newP ∧
    BufferParams.modified newP newP = false ∧
    Session.draw (Session.reset s newP now).1 newP r
      = (some r, (Session.reset s newP now).1) := by
  have hmod : ∀ b : BufferParams, BufferParams.modified b b = false := by
    intro b
    simp [BufferParams.modified]
  have hdisp : (Session.reset s newP now).1.displayParams = some newP := by
    by_cases he : newP = dp
    · subst he
      by_cases hi : s.params.interactive <;>
        simp [Session.reset, reset_parameters, h, hmod, hi, Progress.set_start_time]
    · have hm : newP.modified dp = true := by
        simp [BufferParams.modified, bne_iff_ne, he]
      by_cases hi : s.params.interactive <;>
        simp [Session.reset, reset_parameters, h, hm, hi, Progress.set_start_time]
  refine ⟨hdisp, hmod newP, ?_⟩
  simp [Session.draw, hdisp, hmod]

/-- Witness for C6: resetting the interactive session to 7 x 9 makes an
immediate `draw` at 7 x 9 succeed with the display draw result. -/
theorem c6_reset_then_draw_no_mismatch_witness :
    (Session.reset interactiveSession { width := 7, height := 9 } 5).1.displayParams
      = some { width := 7, height := 9 } ∧
    BufferParams.modified { width := 7, height := 9 } { width := 7, height := 9 } = false ∧
    Session.draw (Session.reset interactiveSession { width := 7, height := 9 } 5).1
        { width := 7, height := 9 } true
      = (some true, (Session.reset interactiveSession { width := 7, height := 9 } 5).1) :=
  c6_reset_then_draw_no_mismatch interactiveSession { width := 7, height := 9 } 5 true
    BufferParams.init rfl

/-- C8: whenever the render loop — interactive or offline — observes a
non-empty engine-client error message (at either check site, reached on
every actively rendering iteration: not cancelled, not done, not
paused), it requests cancellation with the generic diagnostic "ERROR!
Check console for detailed error messages.", clears the engine client's
error message, and the loop exits through the cancellation check rather
than any other path: an error at the first site breaks out of the same
iteration, and a set cancellation flag stops the loop at its very next
`while(!progress.get_cancel())` evaluation. -/
theorem c8_error_message_cancels (s : Session) (ctl : LoopCtl) (env : IterEnv)
    (hCancel : s.progress.cancel = false) (hDone : ctl.is_done = false)
    (hPause : s.pause = false) :
    (env.serverError1 ≠ "" →
      (renderIterBody s ctl env).1.progress.cancel = true ∧
      (renderIterBody s ctl env).1.progress.cancel_message
        = "ERROR! Check console for detailed error messages." ∧
      Event.clearServerError ∈ (renderIterBody s ctl env).2.1 ∧
      (renderIterBody s ctl env).2.2 = IterRes.stop) ∧
    (env.serverError1 = "" → env.serverError2 ≠ "" →
      (renderIterBody s ctl env).1.progress.cancel = true ∧
      (renderIterBody s ctl env).1.progress.cancel_message
        = "ERROR! Check console for detailed error messages." ∧
      Event.clearServerError ∈ (renderIterBody s ctl env).2.1) ∧
    (∀ (s2 : Session) (ctl2 : LoopCtl) (env2 : IterEnv) (rest : List IterEnv),
      s2.progress.cancel = true →
      runLoop s2 ctl2 (env2 :: rest) = (s2, [], Outcome.stopped)) := by
  refine ⟨?_, ?_, ?_⟩
  · intro he1
    by_cases hi : s.params.interactive <;>
    by_cases hb : ctl.bStarted <;>
    by_cases hsc : (!(s.params.export_scene == 0) || env.sceneNeedUpdate) = true <;>
    simp [renderIterBody, update_scene_to_server, serverErrorCheck, Session.cancelWith,
      Progress.set_cancel, Progress.set_status, update_status_time,
      hCancel, hDone, hPause, hi, hb, hsc, he1]
  · intro he1 he2
    by_cases hi : s.params.interactive <;>
    by_cases hb : ctl.bStarted <;>
    by_cases hsc : (!(s.params.export_scene == 0) || env.sceneNeedUpdate) = true <;>
    simp [renderIterBody, update_scene_to_server, serverErrorCheck, Session.cancelWith,
      Progress.set_cancel, Progress.set_status, update_status_time,
      hCancel, hDone, hPause, hi, hb, hsc, he1, he2,
      update_render_buffer_cancel]
  · intro s2 ctl2 env2 rest hc
    unfold runLoop
    rw [if_pos hc]

/-- Witness for C8: an actively rendering iteration of an interactive
session that reads the error message "render failure" cancels with the
generic diagnostic, clears the server error and breaks. -/
theorem c8_error_message_cancels_witness :
    (renderIterBody interactiveSession interactiveCtl c8Env).1.progress.cancel = true ∧
    (renderIterBody interactiveSession interactiveCtl c8Env).1.progress.cancel_message
      = "ERROR! Check console for detailed error messages." ∧
    Event.clearServerError ∈ (renderIterBody interactiveSession interactiveCtl c8Env).2.1 ∧
    (renderIterBody interactiveSession interactiveCtl c8Env).2.2 = IterRes.stop :=
  (c8_error_message_cancels interactiveSession interactiveCtl c8Env rfl rfl rfl).1 (by decide)

/-- C1 counterexample: in the complete offline run `c1Run` the done
predicate is first observed at the end of the iteration whose refresh
brought the sample count to the target, and the loop then performs ZERO
further buffer refreshes before stopping — not the one further refresh
the claim requires (the `update_render_buffer` call in the loop's
done-branch is unreachable: the non-interactive top-of-loop check breaks
first). -/
theorem c1_counterexample :
    refreshesAfterDone c1Run.2.1 = some 0 ∧
    ¬ refreshesAfterDone c1Run.2.1 = some 1 ∧
    c1Run.2.2 = Outcome.stopped ∧
    countStartRender (allEvents c1Run.2.1) = 1 := by
  decide

/-- C1 (amended): in offline mode, once the loop has observed the done
predicate (current samples at or above target at the end of an
iteration), it performs no further buffer refresh and issues no further
engine-client render-start calls: the next iteration only refreshes the
status line (one engine-client connection-health query), sets the
terminal "finished" status and stops. -/
theorem c1_amended_done_stops_without_refresh (s : Session) (ctl : LoopCtl)
    (env : IterEnv) (rest : List IterEnv)
    (hInt : s.params.interactive = false) (hDone : ctl.is_done = true)
    (hCancel : s.progress.cancel = false) :
    (runLoop s ctl (env :: rest)).2.1 = [([Event.statusQuery], ctl)] ∧
    (runLoop s ctl (env :: rest)).2.2 = Outcome.stopped ∧
    (runLoop s ctl (env :: rest)).1.progress.status
      = Status.plain (s.passName ++ " finished") "" ∧
    countRefresh (allEvents (runLoop s ctl (env :: rest)).2.1) = 0 ∧
    countStartRender (allEvents (runLoop s ctl (env :: rest)).2.1) = 0 := by
  refine ⟨?_, ?_, ?_, ?_, ?_⟩ <;>
    simp [runLoop, renderIterBody, hInt, hDone, hCancel, update_status_time,
      Progress.set_status, allEvents, countRefresh, countStartRender]

/-- Witness for C1 (amended): a small offline session that has already
observed the done predicate stops on the next iteration, emitting only
the status-line connection query — no refresh, no render-start. -/
theorem c1_amended_witness :
    (runLoop (offlineSession 5 5 1) { is_done := true, bStarted := true } [quietEnv]).2.1
      = [([Event.statusQuery], { is_done := true, bStarted := true })] ∧
    (runLoop (offlineSession 5 5 1) { is_done := true, bStarted := true } [quietEnv]).2.2
      = Outcome.stopped ∧
    (runLoop (offlineSession 5 5 1) { is_done := true, bStarted := true } [quietEnv]).1.progress.status
      = Status.plain ((offlineSession 5 5 1).passName ++ " finished") "" ∧
    countRefresh (allEvents (runLoop (offlineSession 5 5 1)
      { is_done := true, bStarted := true } [quietEnv]).2.1) = 0 ∧
    countStartRender (allEvents (runLoop (offlineSession 5 5 1)
      { is_done := true, bStarted := true } [quietEnv]).2.1) = 0 :=
  c1_amended_done_stops_without_refresh (offlineSession 5 5 1)
    { is_done := true, bStarted := true } quietEnv [] rfl rfl rfl

end OctaneSession
